import Mathlib

/-!
# Dynamic Depth: container item lookup and depth-photo validation

A shallow embedding of `internal/dynamic_depth/dynamic_depth.cc`:

* `IsMimeTypeImage`, the mime test used by the item lookup;
* `GetItemPayload`, which turns a `Container` and an item URI into a read
  request `(offset, length)` against the bytes that follow the primary image;
* `ValidateAndroidDynamicDepthBuffer`, the depth-photo validator;
* `WriteImageAndMetadataAndContainer`, which appends the item payloads to the
  image written with its metadata.

The collaborators whose code lives outside this translation unit (the XMP
parser with `Device::FromXmp`, `ParseFileAfterImage`, `Device::SerializeToXmp`
and `WriteLeftEyeAndXmpMeta`) are parameters of the embedded functions.  C++ `size_t` is 64 bits wide; additions on it are written
with an explicit `% 2 ^ 64`.
-/

namespace DynamicDepth

/-! ## Floating point values -/

/-- A C++ `float` seen through its comparisons: either NaN, an infinity, or a
finite value given by the rational number it denotes (the two zeros compare
equal and are both `finite 0`). -/
inductive F32 where
  | nan
  | negInf
  | finite (q : ℚ)
  | posInf
  deriving DecidableEq

namespace F32

/-- The C++ operator `<` on `float`: false as soon as an operand is NaN. -/
def lt : F32 → F32 → Bool
  | nan, _ => false
  | _, nan => false
  | negInf, negInf => false
  | negInf, _ => true
  | finite _, negInf => false
  | finite a, finite b => decide (a < b)
  | finite _, posInf => true
  | posInf, _ => false

/-- The C++ operator `>` on `float`. -/
def gt (a b : F32) : Bool := lt b a

/-- The C++ operator `==` on `float`: false as soon as an operand is NaN. -/
def eq : F32 → F32 → Bool
  | negInf, negInf => true
  | finite a, finite b => decide (a = b)
  | posInf, posInf => true
  | _, _ => false

/-- The C++ operator `<=` on `float`: false as soon as an operand is NaN. -/
def le : F32 → F32 → Bool
  | nan, _ => false
  | _, nan => false
  | negInf, _ => true
  | finite _, negInf => false
  | finite a, finite b => decide (a ≤ b)
  | finite _, posInf => true
  | posInf, posInf => true
  | posInf, _ => false

/-- The literal `0.f`. -/
def zero : F32 := finite 0

/-- A value is a number when it is not NaN. -/
def isNaN : F32 → Bool
  | nan => true
  | _ => false

end F32

/-! ## Data model -/

/-- Modelled from the spec: the `DepthUnits` enumeration, declared in
`dynamic_depth/depth_map.h`; the spec names `kMeters` and leaves the other
members open. -/
inductive DepthUnits where
  | kUnitsNone
  | kMeters
  | kDiopters
  deriving DecidableEq

/-- Modelled from the spec: the `DepthFormat` enumeration, declared in
`dynamic_depth/depth_map.h`; the spec names `kRangeInverse` and leaves the
other members open. -/
inductive DepthFormat where
  | kFormatNone
  | kRangeInverse
  | kRangeLinear
  deriving DecidableEq

/-- The fields of a `DepthMap` read by the validator. -/
structure DepthMap where
  depth_uri : String
  units : DepthUnits
  format : DepthFormat
  near : F32
  far : F32
  confidence_uri : String

/-- A `Camera`; `GetDepthMap()` may return `nullptr`. -/
structure Camera where
  depth_map : Option DepthMap

/-- The `Cameras` element: `GetCameras()` is a vector of pointers, any of
which may be null. -/
structure Cameras where
  cameras : List (Option Camera)

/-- A `Profile`: its type string and its camera indices (C++ `int`). -/
structure Profile where
  type : String
  camera_indices : List Int

/-- The `Profiles` element: `GetProfiles()`. -/
structure Profiles where
  profiles : List Profile

/-- A container `Item`: mime type, declared length (`unsigned int`), data URI
and the payload handed to the writer. -/
structure Item where
  mime : String
  length : Nat
  data_uri : String
  payload : String

/-- The `Container` element: `GetItems()`. -/
structure Container where
  items : List Item

/-- A `Device`; each of the three accessors may return `nullptr`. -/
structure Device where
  profiles : Option Profiles
  cameras : Option Cameras
  container : Option Container

/-! ## `IsMimeTypeImage` -/

/-- The constant `kImageMimePrefix`. -/
def kImageMimePrefix : String := "image"

/-- The value `std::string::npos`. -/
def npos : Nat := 2 ^ 64 - 1

/-- The call `s.find("/")` for a one-character needle: the position of its
first occurrence, or `npos`. -/
def find (s : List Char) (c : Char) : Nat :=
  if s.indexOf c < s.length then s.indexOf c else npos

/-- C `strncmp` on the NUL-terminated buffers of two strings: at most `n`
characters are compared, and the comparison stops at the first difference or
at a NUL.  Reading past the data of a string yields its terminating NUL. -/
def strncmp : List Char → List Char → Nat → Int
  | _, _, 0 => 0
  | s1, s2, n + 1 =>
    let c1 := s1.headD (Char.ofNat 0)
    let c2 := s2.headD (Char.ofNat 0)
    if c1 ≠ c2 then (c1.toNat : Int) - (c2.toNat : Int)
    else if c1 = Char.ofNat 0 then 0
    else strncmp s1.tail s2.tail n

/-- The function `IsMimeTypeImage`: lower-case the mime type, then compare its
first `find("/")` characters with `kImageMimePrefix`. -/
def IsMimeTypeImage (mime : String) : Bool :=
  let mime_lower := mime.data.map Char.toLower
  strncmp mime_lower kImageMimePrefix.data (find mime_lower (Char.ofNat 47)) == 0

/-! ## `GetItemPayload` -/

/-- One call of `ParseFileAfterImage(filename, offset, length, &payload)`. -/
structure ReadRequest where
  filename : String
  offset : Nat
  length : Nat
  deriving DecidableEq

/-- What a call of `GetItemPayload` leaves behind: its return value, the final
content of `*out_payload`, the reads it requested and the messages it logged. -/
structure PayloadResult where
  success : Bool
  out_payload : String
  reads : List ReadRequest
  log : List String
  deriving DecidableEq

/-- The local variables of the item scan in `GetItemPayload`. -/
structure ScanState where
  file_offset : Nat
  file_length : Nat
  index : Nat
  is_mime_type_image : Bool
  deriving DecidableEq

/-- The `for` loop of `GetItemPayload` over the remaining items: it records
the mime test of the current item, stops at the first item whose data URI is
`item_uri` (taking its length), and otherwise adds the item's length to the
offset and advances the index. -/
def scanItems (item_uri : String) : List Item → ScanState → ScanState
  | [], s => s
  | item :: rest, s =>
    if item_uri = item.data_uri then
      { s with is_mime_type_image := IsMimeTypeImage item.mime,
               file_length := item.length }
    else
      scanItems item_uri rest
        { s with is_mime_type_image := IsMimeTypeImage item.mime,
                 file_offset := (s.file_offset + item.length) % 2 ^ 64,
                 index := s.index + 1 }

/-- The state in which the scan starts. -/
def scanInit : ScanState :=
  { file_offset := 0, file_length := 0, index := 0, is_mime_type_image := false }

/-- The overload `GetItemPayload(filename, const Container*, item_uri,
out_payload)`.  `ParseFileAfterImage` is the reader of the bytes after the
primary image; `out_payload` is the content of `*out_payload` on entry.  The
`int index` counts items and is a natural number here. -/
def GetItemPayload (ParseFileAfterImage : String → Nat → Nat → Bool × String)
    (input_image_filename : String) (container : Option Container)
    (item_uri : String) (out_payload : String) : PayloadResult :=
  match container with
  | none =>
    { success := false, out_payload := out_payload, reads := [],
      log := ["Container cannot be null"] }
  | some c =>
    let s := scanItems item_uri c.items scanInit
    let r := ParseFileAfterImage input_image_filename s.file_offset s.file_length
    let read : PayloadResult :=
      { success := r.1, out_payload := r.2,
        reads := [{ filename := input_image_filename, offset := s.file_offset,
                    length := s.file_length }],
        log := [] }
    if s.file_length = 0 then
      if s.index = 0 ∧ s.is_mime_type_image = true then
        { success := true, out_payload := out_payload, reads := [],
          log := ["Item references the primary image, Not populating data"] }
      else if s.file_offset = 0 then
        { success := false, out_payload := out_payload, reads := [],
          log := ["Not using the primary image, or not image mime, or not " ++
                  "the first item, but has file offset of 0"] }
      else read
    else read

/-- The overload `GetItemPayload(filename, const Device*, item_uri,
out_payload)`. -/
def GetItemPayloadOfDevice (ParseFileAfterImage : String → Nat → Nat → Bool × String)
    (input_image_filename : String) (device : Option Device)
    (item_uri : String) (out_payload : String) : PayloadResult :=
  match device with
  | none =>
    { success := false, out_payload := out_payload, reads := [],
      log := ["No Container element to parse"] }
  | some d =>
    match d.container with
    | none =>
      { success := false, out_payload := out_payload, reads := [],
        log := ["No Container element to parse"] }
    | some c =>
      GetItemPayload ParseFileAfterImage input_image_filename (some c) item_uri out_payload

/-! ## `ValidateAndroidDynamicDepthBuffer` -/

/-- How a run of the validator ends: it returns a status code after logging
one error message (none on success), or it subscripts the camera vector at an
index that is not below its size, which C++ leaves undefined. -/
inductive Outcome where
  | returned (code : Int) (log : List String)
  | outOfBoundsRead (index size : Nat)
  deriving DecidableEq

/-- The profile loop of the validator, on the remaining profiles: the pair
`(depth_photo_profile_found, camera_index)` it ends with.  The loop stops at
the first profile of type "DepthPhoto" and takes its first camera index, or
`-1` when it has none. -/
def scanProfiles : List Profile → Bool × Int → Bool × Int
  | [], s => s
  | profile :: rest, s =>
    if profile.type = "DepthPhoto" then
      match profile.camera_indices with
      | i :: _ => (true, i)
      | [] => (true, -1)
    else
      scanProfiles rest (false, s.2)

/-- The rejection test on `near` and `far`:
`(near < 0.f) || (far < 0.f) || (near > far) || (near == far)`. -/
def nearFarRejected (near far : F32) : Bool :=
  F32.lt near F32.zero || F32.lt far F32.zero || F32.gt near far || F32.eq near far

/-- The checks the validator runs on the depth map of the selected camera. -/
def validateDepthMap (depth_map : DepthMap) : Outcome :=
  if depth_map.depth_uri.data.isEmpty then
    .returned (-1) ["Invalid depth map URI"]
  else if depth_map.units ≠ DepthUnits.kMeters then
    .returned (-1) ["Unexpected depth map units"]
  else if depth_map.format ≠ DepthFormat.kRangeInverse then
    .returned (-1) ["Unexpected depth map format"]
  else if nearFarRejected depth_map.near depth_map.far then
    .returned (-1) ["Unexpected depth map near and far values"]
  else if depth_map.confidence_uri.data.isEmpty then
    .returned (-1) ["No confidence URI"]
  else
    .returned 0 []

/-- The checks the validator runs on a parsed `Device`.  `camera_index` is not
negative where it is compared with the vector size and used as a subscript, so
its conversion to `size_t` keeps its value. -/
def validateDevice (device : Device) : Outcome :=
  match device.profiles with
  | none => .returned (-1) ["No Profile found in the dynamic depth metadata"]
  | some profiles =>
    let s := scanProfiles profiles.profiles (false, 0)
    let depth_photo_profile_found := s.1
    let camera_index := s.2
    if !depth_photo_profile_found || camera_index < 0 then
      .returned (-1) ["No dynamic depth profile found"]
    else
      match device.cameras with
      | none => .returned (-1) ["No camera or depth photo data found"]
      | some cameras =>
        if camera_index.toNat > cameras.cameras.length then
          .returned (-1) ["No camera or depth photo data found"]
        else
          match cameras.cameras[camera_index.toNat]? with
          | none => .outOfBoundsRead camera_index.toNat cameras.cameras.length
          | some none => .returned (-1) ["No camera or depth photo data found"]
          | some (some camera) =>
            match camera.depth_map with
            | none => .returned (-1) ["No depth map found"]
            | some depth_map => validateDepthMap depth_map

/-- The function `ValidateAndroidDynamicDepthBuffer`.  `FromXmp` stands for
`ReadXmpFromMemory` followed by `Device::FromXmp` on the buffer; it yields no
device when the metadata holds no Device element. -/
def ValidateAndroidDynamicDepthBuffer (FromXmp : String → Option Device)
    (buffer : String) : Outcome :=
  match FromXmp buffer with
  | none => .returned (-1) ["Dynamic depth device element not present!"]
  | some device => validateDevice device

/-! ## `WriteImageAndMetadataAndContainer` -/

/-- How a run of the writer ends: it returns its success flag with the bytes
now held by the output stream, or a `write` call asks for more bytes than the
buffer of the payload holds, which C++ leaves undefined. -/
inductive WriteOutcome where
  | finished (success : Bool) (output : String)
  | payloadOverRead (requested size : Nat)
  deriving DecidableEq

/-- The call `output_jpeg_stream->write(payload.c_str(), payload_size)`: the
stream takes the first `payload_size` bytes of the buffer of `payload`, which
holds the payload followed by its terminating NUL; there is no result when
more bytes are requested than that buffer holds.  The stream accepts every
byte it is given. -/
def streamWrite (output payload : String) (payload_size : Nat) : Option String :=
  let buffer := payload.data ++ [Char.ofNat 0]
  if payload_size ≤ buffer.length then
    some (output ++ String.mk (buffer.take payload_size))
  else
    none

/-- The `for` loop of the writer over the remaining items: an item whose
length is 0 or whose payload is empty is skipped, any other has `GetLength()`
bytes of its payload written.  An error carries the requested byte count and
the payload size of the item whose buffer is too short. -/
def writeItems : List Item → String → Except (Nat × Nat) String
  | [], output => .ok output
  | item :: rest, output =>
    let payload := item.payload
    let payload_size := item.length
    if payload_size ≤ 0 ∨ payload.data.isEmpty = true then
      writeItems rest output
    else
      match streamWrite output payload payload_size with
      | some written => writeItems rest written
      | none => .error (payload_size, payload.length)

/-- The overload `WriteImageAndMetadataAndContainer(std::istream*, Device*,
std::ostream*)`.  `SerializeToXmp` is `Device::SerializeToXmp` into a fresh
`XmpData`, and `WriteLeftEyeAndXmpMeta` yields the success flag of the
metadata and JPEG write with the bytes it put on the output stream;
`output_jpeg_stream` is what the stream holds on entry. -/
def WriteImageAndMetadataAndContainer {XmpData : Type} (SerializeToXmp : Device → XmpData)
    (WriteLeftEyeAndXmpMeta : XmpData → String → Bool × String)
    (input_jpeg_stream : String) (device : Device) (output_jpeg_stream : String) :
    WriteOutcome :=
  let xmp_data := SerializeToXmp device
  let written := WriteLeftEyeAndXmpMeta xmp_data input_jpeg_stream
  let success := written.1
  let output := output_jpeg_stream ++ written.2
  match device.container with
  | none => .finished success output
  | some container =>
    match writeItems container.items output with
    | .ok appended => .finished success appended
    | .error (requested, size) => .payloadOverRead requested size

/-- The overload `WriteImageAndMetadataAndContainer(out_filename,
primary_image_bytes, primary_image_bytes_count, device)`: the output file is
opened, which empties it, and handed to the stream overload; the outcome
carries the content of the file. -/
def WriteImageAndMetadataAndContainerToFile {XmpData : Type}
    (SerializeToXmp : Device → XmpData)
    (WriteLeftEyeAndXmpMeta : XmpData → String → Bool × String)
    (primary_image_bytes : String) (device : Device) : WriteOutcome :=
  WriteImageAndMetadataAndContainer SerializeToXmp WriteLeftEyeAndXmpMeta
    primary_image_bytes device ""

/-! ## Vocabulary of the statements -/

/-- `p` is the first profile of type "DepthPhoto" in the list `ps`. -/
def FirstDepthPhoto (ps : List Profile) (p : Profile) : Prop :=
  ∃ pre post, ps = pre ++ p :: post ∧ (∀ q ∈ pre, q.type ≠ "DepthPhoto") ∧
    p.type = "DepthPhoto"

/-- The device selects the camera `cam`: its first "DepthPhoto" profile has a
first camera index `i` with `0 ≤ i`, and entry `i` of the camera list exists
and is the non-null camera `cam`. -/
def SelectsCamera (d : Device) (cam : Camera) : Prop :=
  ∃ ps p i rest cs, d.profiles = some ps ∧ FirstDepthPhoto ps.profiles p ∧
    p.camera_indices = i :: rest ∧ 0 ≤ i ∧ d.cameras = some cs ∧
    cs.cameras[i.toNat]? = some (some cam)

/-- `item` is the first item of `items` whose data URI is `uri`, and `pre` are
the items before it. -/
def FirstMatch (items : List Item) (uri : String) (pre : List Item) (item : Item) : Prop :=
  ∃ post, items = pre ++ item :: post ∧ (∀ q ∈ pre, q.data_uri ≠ uri) ∧
    item.data_uri = uri

/-- The sum of the declared lengths of a list of items. -/
def totalLength (items : List Item) : Nat := (items.map Item.length).sum

/-- The payloads of a list of items, one after the other in list order. -/
def payloadBytes : List Item → String
  | [] => ""
  | item :: rest => item.payload ++ payloadBytes rest

/-- The items the writer does not skip: non-zero length and non-empty
payload. -/
def writtenItems (items : List Item) : List Item :=
  items.filter (fun it => decide (it.length ≠ 0) && !it.payload.data.isEmpty)

/-- The status code of an outcome, when the run returned one. -/
def Outcome.code : Outcome → Option Int
  | .returned code _ => some code
  | .outOfBoundsRead _ _ => none

/-! ## Test data -/

/-- The rational one half, the value of the `float` 0.5. -/
def oneHalf : ℚ := ⟨1, 2, by decide, by decide⟩

/-- The rational one tenth, standing for the `float` 0.1. -/
def oneTenth : ℚ := ⟨1, 10, by decide, by decide⟩

/-- The depth map of the end-to-end example of the spec. -/
def exampleDepthMap : DepthMap :=
  { depth_uri := "d", units := .kMeters, format := .kRangeInverse,
    near := .finite oneHalf, far := .finite 10, confidence_uri := "c" }

/-- The device of the end-to-end example: one "DepthPhoto" profile selecting
camera 0, and one camera owning `exampleDepthMap`. -/
def exampleDevice : Device :=
  { profiles := some { profiles := [{ type := "DepthPhoto", camera_indices := [0] }] },
    cameras := some { cameras := [some { depth_map := some exampleDepthMap }] },
    container := none }

/-- The example device with the depth map of its camera taken away. -/
def deviceWithoutDepthMap : Device :=
  { exampleDevice with cameras := some { cameras := [some { depth_map := none }] } }

/-- The example device with `far` changed to 0.1, so that `near > far`. -/
def deviceNearAboveFar : Device :=
  { exampleDevice with
    cameras := some { cameras :=
      [some { depth_map := some { exampleDepthMap with far := .finite oneTenth } }] } }

/-- The example device with its profile selecting camera 1, one past the only
camera. -/
def deviceIndexAtCount : Device :=
  { exampleDevice with
    profiles := some { profiles := [{ type := "DepthPhoto", camera_indices := [1] }] } }

/-- The example device with a profile that lists no camera index. -/
def deviceNoIndex : Device :=
  { exampleDevice with
    profiles := some { profiles := [{ type := "DepthPhoto", camera_indices := [] }] } }

/-- The container of the indexer example: lengths 0, 100 and 50. -/
def exampleContainer : Container :=
  { items := [{ mime := "image/jpeg", length := 0, data_uri := "primary", payload := "" },
              { mime := "image/jpeg", length := 100, data_uri := "depth", payload := "" },
              { mime := "image/jpeg", length := 50, data_uri := "confidence", payload := "" }] }

/-- A container of two items of length 0. -/
def emptyItemsContainer : Container :=
  { items := [{ mime := "image/jpeg", length := 0, data_uri := "a", payload := "" },
              { mime := "image/jpeg", length := 0, data_uri := "b", payload := "" }] }

/-- A reader over 150 bytes of appended payload: a request succeeds when it
ends within them. -/
def exampleReader (_filename : String) (offset length : Nat) : Bool × String :=
  (decide (offset + length ≤ 150), "bytes")

/-- A metadata writer that succeeds and puts the bytes "JPEG" on the stream. -/
def exampleXmpWriter (_xmp_data : Unit) (_input : String) : Bool × String :=
  (true, "JPEG")

/-- A metadata writer that fails without putting a byte on the stream. -/
def failingXmpWriter (_xmp_data : Unit) (_input : String) : Bool × String :=
  (false, "")

/-- A device whose container holds a primary image item of length 0 and two
items whose lengths are their payload sizes. -/
def payloadDevice : Device :=
  { profiles := none, cameras := none,
    container := some { items :=
      [{ mime := "image/jpeg", length := 0, data_uri := "primary", payload := "" },
       { mime := "image/jpeg", length := 3, data_uri := "depth", payload := "abc" },
       { mime := "image/jpeg", length := 2, data_uri := "confidence", payload := "de" }] } }

/-- A device whose only item declares 10 bytes for a payload of 3. -/
def shortPayloadDevice : Device :=
  { profiles := none, cameras := none,
    container := some { items :=
      [{ mime := "image/jpeg", length := 10, data_uri := "depth", payload := "abc" }] } }

/-- A container whose first item has length 0 and the mime type "im/x". -/
def truncatedMimeContainer : Container :=
  { items := [{ mime := "im/x", length := 0, data_uri := "primary", payload := "" }] }

/-- The example device with a first "DepthPhoto" profile that lists no camera
index, followed by a "DepthPhoto" profile selecting camera 0. -/
def deviceSecondProfileValid : Device :=
  { exampleDevice with
    profiles := some { profiles := [{ type := "DepthPhoto", camera_indices := [] },
                                    { type := "DepthPhoto", camera_indices := [0] }] } }

/-! ## Auxiliary lemmas -/

theorem data_isEmpty_iff (s : String) : s.data.isEmpty = true ↔ s = "" := by
  cases s with
  | mk l => cases l <;> simp [String.ext_iff]

theorem scanProfiles_absent (ps : List Profile) (k : Int)
    (h : ∀ q ∈ ps, q.type ≠ "DepthPhoto") : scanProfiles ps (false, k) = (false, k) := by
  induction ps with
  | nil => rfl
  | cons q qs ih =>
    have hq : q.type ≠ "DepthPhoto" := h q (List.mem_cons_self _ _)
    have hqs : ∀ r ∈ qs, r.type ≠ "DepthPhoto" := fun r hr => h r (List.mem_cons_of_mem _ hr)
    simp [scanProfiles, hq, ih hqs]

theorem scanProfiles_first (pre post : List Profile) (p : Profile) (s : Bool × Int)
    (hpre : ∀ q ∈ pre, q.type ≠ "DepthPhoto") (hp : p.type = "DepthPhoto") :
    scanProfiles (pre ++ p :: post) s = (true, p.camera_indices.headD (-1)) := by
  induction pre generalizing s with
  | nil =>
    cases hci : p.camera_indices <;> simp [scanProfiles, hp, hci]
  | cons q qs ih =>
    have hq : q.type ≠ "DepthPhoto" := hpre q (List.mem_cons_self _ _)
    have hqs : ∀ r ∈ qs, r.type ≠ "DepthPhoto" := fun r hr => hpre r (List.mem_cons_of_mem _ hr)
    simp [scanProfiles, hq, ih _ hqs]

theorem validateDevice_of_selects (d : Device) (cam : Camera) (h : SelectsCamera d cam) :
    validateDevice d =
      match cam.depth_map with
      | none => .returned (-1) ["No depth map found"]
      | some depth_map => validateDepthMap depth_map := by
  obtain ⟨ps, p, i, rest, cs, hps, ⟨pre, post, hsplit, hpre, hp⟩, hci, hi, hcs, hcam⟩ := h
  have hscan := scanProfiles_first pre post p (false, 0) hpre hp
  have hlen : i.toNat < cs.cameras.length := by
    by_contra hge
    rw [List.getElem?_eq_none (Nat.le_of_not_lt hge)] at hcam
    exact absurd hcam (by simp)
  have hneg : ¬ i < 0 := not_lt.mpr hi
  have hgt : ¬ cs.cameras.length < i.toNat := by omega
  simp [validateDevice, hps, hsplit, hscan, hci, hneg, hcs, hgt, hcam]

theorem nearFar_accepted_of_range (near far : F32) (h0 : F32.le F32.zero near = true)
    (hlt : F32.lt near far = true) : nearFarRejected near far = false := by
  cases near <;> cases far <;>
    simp_all [nearFarRejected, F32.le, F32.lt, F32.gt, F32.eq, F32.zero]
  exact ⟨⟨le_trans h0 (le_of_lt hlt), le_of_lt hlt⟩, ne_of_lt hlt⟩

/-! ## The validator -/

/-- C1: the validator returns 0 for every buffer whose parsed Device has a
Profiles element whose first "DepthPhoto" profile starts its camera indices
with an index `i`, `0 ≤ i < number of cameras`, when the camera at `i` is not
null and owns a DepthMap with a non-empty depth URI, units `kMeters`, format
`kRangeInverse`, `0 ≤ near < far` and a non-empty confidence URI. -/
theorem validate_accepts_depth_photo (FromXmp : String → Option Device) (buffer : String)
    (d : Device) (cam : Camera) (dm : DepthMap)
    (hparse : FromXmp buffer = some d) (hsel : SelectsCamera d cam)
    (hdm : cam.depth_map = some dm) (huri : dm.depth_uri ≠ "")
    (hunits : dm.units = DepthUnits.kMeters) (hformat : dm.format = DepthFormat.kRangeInverse)
    (hnear : F32.le F32.zero dm.near = true) (hfar : F32.lt dm.near dm.far = true)
    (hconf : dm.confidence_uri ≠ "") :
    ValidateAndroidDynamicDepthBuffer FromXmp buffer = .returned 0 [] := by
  have h1 : ¬ dm.depth_uri.data.isEmpty = true := fun h => huri ((data_isEmpty_iff _).mp h)
  have h2 : ¬ dm.confidence_uri.data.isEmpty = true :=
    fun h => hconf ((data_isEmpty_iff _).mp h)
  have h3 := nearFar_accepted_of_range dm.near dm.far hnear hfar
  simp only [ValidateAndroidDynamicDepthBuffer, hparse, validateDevice_of_selects d cam hsel,
    hdm, validateDepthMap]
  simp [h1, h2, h3, hunits, hformat]

theorem singleProfile_selects (type : String) (i : Int) (rest : List Int)
    (cs : List (Option Camera)) (cam : Camera) (container : Option Container)
    (htype : type = "DepthPhoto") (hi : 0 ≤ i) (hcam : cs[i.toNat]? = some (some cam)) :
    SelectsCamera
      { profiles := some { profiles := [{ type := type, camera_indices := i :: rest }] },
        cameras := some { cameras := cs }, container := container } cam :=
  ⟨_, _, i, rest, _, rfl, ⟨[], [], rfl, by simp, htype⟩, rfl, hi, rfl, hcam⟩

/-- Witness of C1: the end-to-end example of the spec validates as 0. -/
theorem validate_accepts_depth_photo_witness :
    SelectsCamera exampleDevice { depth_map := some exampleDepthMap } ∧
    ValidateAndroidDynamicDepthBuffer (fun _ => some exampleDevice) "jpeg" = .returned 0 [] :=
  ⟨singleProfile_selects _ 0 [] _ _ none rfl (le_refl 0) rfl,
   validate_accepts_depth_photo (fun _ => some exampleDevice) "jpeg" exampleDevice
    { depth_map := some exampleDepthMap } exampleDepthMap rfl
    (singleProfile_selects _ 0 [] _ _ none rfl (le_refl 0) rfl) rfl (by decide) rfl rfl
    (by decide) (by decide) (by decide)⟩

/-- C4: the validator returns a negative code whenever no Device element is
parsed, or the Device has no Profiles element, or no profile has type exactly
"DepthPhoto", or the selected camera owns no DepthMap, or the selected
camera's DepthMap has an empty depth URI, units other than `kMeters`, a format
other than `kRangeInverse`, or an empty confidence URI. -/
theorem validate_rejects_malformed (FromXmp : String → Option Device) (buffer : String)
    (h : FromXmp buffer = none ∨
      ∃ d, FromXmp buffer = some d ∧
        (d.profiles = none ∨
         (∃ ps, d.profiles = some ps ∧ ∀ p ∈ ps.profiles, p.type ≠ "DepthPhoto") ∨
         (∃ cam, SelectsCamera d cam ∧
            (cam.depth_map = none ∨
             ∃ dm, cam.depth_map = some dm ∧
               (dm.depth_uri = "" ∨ dm.units ≠ DepthUnits.kMeters ∨
                dm.format ≠ DepthFormat.kRangeInverse ∨ dm.confidence_uri = ""))))) :
    ∃ code log, ValidateAndroidDynamicDepthBuffer FromXmp buffer = .returned code log ∧
      code < 0 := by
  rcases h with hnone | ⟨d, hparse, hnoprof | ⟨ps, hps, hall⟩ | ⟨cam, hsel, hcam⟩⟩
  · exact ⟨-1, ["Dynamic depth device element not present!"],
      by simp [ValidateAndroidDynamicDepthBuffer, hnone], by decide⟩
  · exact ⟨-1, ["No Profile found in the dynamic depth metadata"],
      by simp [ValidateAndroidDynamicDepthBuffer, hparse, validateDevice, hnoprof], by decide⟩
  · refine ⟨-1, ["No dynamic depth profile found"], ?_, by decide⟩
    simp [ValidateAndroidDynamicDepthBuffer, hparse, validateDevice, hps,
      scanProfiles_absent ps.profiles 0 hall]
  · simp only [ValidateAndroidDynamicDepthBuffer, hparse, validateDevice_of_selects d cam hsel]
    rcases hcam with hno | ⟨dm, hdm, hbad⟩
    · exact ⟨-1, ["No depth map found"], by simp [hno], by decide⟩
    · simp only [hdm, validateDepthMap]
      have e1 := data_isEmpty_iff dm.depth_uri
      have e2 := data_isEmpty_iff dm.confidence_uri
      split_ifs with c1 c2 c3 c4 c5
      · exact ⟨-1, _, rfl, by decide⟩
      · exact ⟨-1, _, rfl, by decide⟩
      · exact ⟨-1, _, rfl, by decide⟩
      · exact ⟨-1, _, rfl, by decide⟩
      · exact ⟨-1, _, rfl, by decide⟩
      · exfalso
        rcases hbad with hb | hb | hb | hb
        · exact c1 (e1.mpr hb)
        · exact c2 hb
        · exact c3 hb
        · exact c5 (e2.mpr hb)

/-- Witness of C4: the example device whose camera lost its DepthMap is
rejected with a negative code. -/
theorem validate_rejects_malformed_witness :
    ∃ code log, ValidateAndroidDynamicDepthBuffer (fun _ => some deviceWithoutDepthMap) "jpeg"
      = .returned code log ∧ code < 0 :=
  validate_rejects_malformed (fun _ => some deviceWithoutDepthMap) "jpeg"
    (Or.inr ⟨deviceWithoutDepthMap, rfl, Or.inr (Or.inr ⟨{ depth_map := none },
      singleProfile_selects _ 0 [] _ _ none rfl (le_refl 0) rfl, Or.inl rfl⟩)⟩)

theorem nearFar_accepted_iff (near far : F32) (hn : near.isNaN = false)
    (hf : far.isNaN = false) :
    nearFarRejected near far = false ↔
      (F32.le F32.zero near = true ∧ F32.le near far = true ∧ F32.eq near far = false) := by
  cases near <;> cases far <;>
    simp_all [nearFarRejected, F32.le, F32.lt, F32.gt, F32.eq, F32.zero, F32.isNaN]
  constructor
  · rintro ⟨⟨⟨h1, _⟩, h3⟩, h4⟩
    exact ⟨h1, h3, h4⟩
  · rintro ⟨h1, h2, h3⟩
    exact ⟨⟨⟨h1, le_trans h1 h2⟩, h2⟩, h3⟩

theorem validateDepthMap_nearFar (dm : DepthMap) (hrej : nearFarRejected dm.near dm.far = true) :
    ∃ log, validateDepthMap dm = .returned (-1) log := by
  unfold validateDepthMap
  split_ifs
  · exact ⟨_, rfl⟩
  · exact ⟨_, rfl⟩
  · exact ⟨_, rfl⟩
  · exact ⟨_, rfl⟩

/-- C5, as the code has it: a rejection for a missing DepthMap and a rejection
for `near > far` carry the same code `-1`; they differ in the logged message
only. -/
theorem failure_codes_coincide (FromXmp : String → Option Device) (buffer1 buffer2 : String)
    (d1 d2 : Device) (cam1 cam2 : Camera) (dm : DepthMap)
    (hparse1 : FromXmp buffer1 = some d1) (hsel1 : SelectsCamera d1 cam1)
    (hno : cam1.depth_map = none)
    (hparse2 : FromXmp buffer2 = some d2) (hsel2 : SelectsCamera d2 cam2)
    (hdm : cam2.depth_map = some dm) (huri : dm.depth_uri ≠ "")
    (hunits : dm.units = DepthUnits.kMeters) (hformat : dm.format = DepthFormat.kRangeInverse)
    (hgt : F32.gt dm.near dm.far = true) :
    ValidateAndroidDynamicDepthBuffer FromXmp buffer1 = .returned (-1) ["No depth map found"] ∧
    ValidateAndroidDynamicDepthBuffer FromXmp buffer2 =
      .returned (-1) ["Unexpected depth map near and far values"] := by
  have h1 : ¬ dm.depth_uri.data.isEmpty = true := fun h => huri ((data_isEmpty_iff _).mp h)
  have h3 : nearFarRejected dm.near dm.far = true := by simp [nearFarRejected, hgt]
  constructor
  · simp [ValidateAndroidDynamicDepthBuffer, hparse1, validateDevice_of_selects d1 cam1 hsel1,
      hno]
  · simp only [ValidateAndroidDynamicDepthBuffer, hparse2,
      validateDevice_of_selects d2 cam2 hsel2, hdm, validateDepthMap]
    simp [h1, h3, hunits, hformat]

/-- Witness of C5 as amended: with buffer "a" parsed to the example device
without its DepthMap and buffer "b" to the example device with `far` set to
0.1, both runs return `-1`. -/
theorem failure_codes_coincide_witness :
    ValidateAndroidDynamicDepthBuffer
      (fun b => if b = "a" then some deviceWithoutDepthMap else some deviceNearAboveFar) "a"
      = .returned (-1) ["No depth map found"] ∧
    ValidateAndroidDynamicDepthBuffer
      (fun b => if b = "a" then some deviceWithoutDepthMap else some deviceNearAboveFar) "b"
      = .returned (-1) ["Unexpected depth map near and far values"] :=
  failure_codes_coincide _ "a" "b" deviceWithoutDepthMap deviceNearAboveFar
    { depth_map := none }
    { depth_map := some { exampleDepthMap with far := .finite oneTenth } }
    { exampleDepthMap with far := .finite oneTenth }
    (by simp) (singleProfile_selects _ 0 [] _ _ none rfl (le_refl 0) rfl) rfl
    (by simp) (singleProfile_selects _ 0 [] _ _ none rfl (le_refl 0) rfl) rfl
    (by decide) rfl rfl (by decide)

/-- Counterexample to C5 as stated: the example device without its DepthMap and
the example device with `near = 0.5`, `far = 0.1` are both rejected with code
`-1`, so the two codes are not different. -/
theorem failure_codes_distinct_counterexample :
    (ValidateAndroidDynamicDepthBuffer (fun _ => some deviceWithoutDepthMap) "jpeg").code
      = some (-1) ∧
    (ValidateAndroidDynamicDepthBuffer (fun _ => some deviceNearAboveFar) "jpeg").code
      = some (-1) ∧
    ¬ ((ValidateAndroidDynamicDepthBuffer (fun _ => some deviceWithoutDepthMap) "jpeg").code ≠
       (ValidateAndroidDynamicDepthBuffer (fun _ => some deviceNearAboveFar) "jpeg").code) := by
  decide

/-- C6: for the DepthMap of the selected camera, with `near` and `far` not NaN,
the near/far test of the validator passes if and only if `0 ≤ near ≤ far` and
`near ≠ far`; when the other fields are valid the validator returns 0 exactly
in that case; and whenever `near > far`, `near == far` or `near < 0` the
validator returns a negative code. -/
theorem near_far_check (FromXmp : String → Option Device) (buffer : String)
    (d : Device) (cam : Camera) (dm : DepthMap)
    (hparse : FromXmp buffer = some d) (hsel : SelectsCamera d cam)
    (hdm : cam.depth_map = some dm)
    (hn : dm.near.isNaN = false) (hf : dm.far.isNaN = false) :
    (nearFarRejected dm.near dm.far = false ↔
      (F32.le F32.zero dm.near = true ∧ F32.le dm.near dm.far = true ∧
        F32.eq dm.near dm.far = false)) ∧
    (dm.depth_uri ≠ "" → dm.units = DepthUnits.kMeters →
      dm.format = DepthFormat.kRangeInverse → dm.confidence_uri ≠ "" →
      (ValidateAndroidDynamicDepthBuffer FromXmp buffer = .returned 0 [] ↔
        (F32.le F32.zero dm.near = true ∧ F32.le dm.near dm.far = true ∧
          F32.eq dm.near dm.far = false))) ∧
    ((F32.gt dm.near dm.far = true ∨ F32.eq dm.near dm.far = true ∨
        F32.lt dm.near F32.zero = true) →
      ∃ code log, ValidateAndroidDynamicDepthBuffer FromXmp buffer = .returned code log ∧
        code < 0) := by
  have hV : ValidateAndroidDynamicDepthBuffer FromXmp buffer = validateDepthMap dm := by
    simp [ValidateAndroidDynamicDepthBuffer, hparse, validateDevice_of_selects d cam hsel, hdm]
  have hiff := nearFar_accepted_iff dm.near dm.far hn hf
  refine ⟨hiff, ?_, ?_⟩
  · intro huri hunits hformat hconf
    have h1 : ¬ dm.depth_uri.data.isEmpty = true := fun h => huri ((data_isEmpty_iff _).mp h)
    have h2 : ¬ dm.confidence_uri.data.isEmpty = true :=
      fun h => hconf ((data_isEmpty_iff _).mp h)
    rw [hV, ← hiff]
    cases hr : nearFarRejected dm.near dm.far <;>
      simp [validateDepthMap, h1, h2, hunits, hformat, hr]
  · intro hbad
    have hrej : nearFarRejected dm.near dm.far = true := by
      rcases hbad with h | h | h <;> simp [nearFarRejected, h]
    obtain ⟨log, hlog⟩ := validateDepthMap_nearFar dm hrej
    exact ⟨-1, log, by rw [hV, hlog], by decide⟩

/-- Witness of C6: the example device with `far` set to 0.1. -/
theorem near_far_check_witness :
    ∃ code log, ValidateAndroidDynamicDepthBuffer (fun _ => some deviceNearAboveFar) "jpeg"
      = .returned code log ∧ code < 0 :=
  (near_far_check (fun _ => some deviceNearAboveFar) "jpeg" deviceNearAboveFar
    { depth_map := some { exampleDepthMap with far := .finite oneTenth } }
    { exampleDepthMap with far := .finite oneTenth } rfl
    (singleProfile_selects _ 0 [] _ _ none rfl (le_refl 0) rfl) rfl rfl rfl).2.2
    (Or.inl (by decide))

/-- C7: when the first "DepthPhoto" profile lists no camera index the validator
returns a negative code, whatever the Cameras element holds. -/
theorem validate_rejects_empty_indices (FromXmp : String → Option Device) (buffer : String)
    (d : Device) (ps : Profiles) (p : Profile)
    (hparse : FromXmp buffer = some d) (hps : d.profiles = some ps)
    (hfirst : FirstDepthPhoto ps.profiles p) (hempty : p.camera_indices = []) :
    ValidateAndroidDynamicDepthBuffer FromXmp buffer =
      .returned (-1) ["No dynamic depth profile found"] := by
  obtain ⟨pre, post, hsplit, hpre, hp⟩ := hfirst
  have hscan := scanProfiles_first pre post p (false, 0) hpre hp
  simp [ValidateAndroidDynamicDepthBuffer, hparse, validateDevice, hps, hsplit, hscan, hempty]

/-- Witness of C7: the example device with an empty index list, although its
camera 0 is a valid depth camera. -/
theorem validate_rejects_empty_indices_witness :
    ValidateAndroidDynamicDepthBuffer (fun _ => some deviceNoIndex) "jpeg" =
      .returned (-1) ["No dynamic depth profile found"] :=
  validate_rejects_empty_indices (fun _ => some deviceNoIndex) "jpeg" deviceNoIndex
    { profiles := [{ type := "DepthPhoto", camera_indices := [] }] }
    { type := "DepthPhoto", camera_indices := [] } rfl rfl
    ⟨[], [], rfl, by simp, rfl⟩ rfl

theorem validateDevice_index_above_count (d : Device) (ps : Profiles) (p : Profile)
    (i : Int) (rest : List Int) (cs : Cameras)
    (hps : d.profiles = some ps) (hfirst : FirstDepthPhoto ps.profiles p)
    (hci : p.camera_indices = i :: rest) (hcs : d.cameras = some cs)
    (habove : (cs.cameras.length : Int) < i) :
    validateDevice d = .returned (-1) ["No camera or depth photo data found"] := by
  obtain ⟨pre, post, hsplit, hpre, hp⟩ := hfirst
  have hscan := scanProfiles_first pre post p (false, 0) hpre hp
  have hneg : ¬ i < 0 := by omega
  have hgt : cs.cameras.length < i.toNat := by omega
  simp [validateDevice, hps, hsplit, hscan, hci, hneg, hcs, hgt]

/-- C8, at the boundary: with one camera and a first "DepthPhoto" profile that
selects index 1, the guard `camera_index > size` lets the index through and
the validator subscripts the camera vector at position 1 of 1. -/
theorem validate_index_at_count_reads_out_of_bounds :
    ValidateAndroidDynamicDepthBuffer (fun _ => some deviceIndexAtCount) "jpeg" =
      .outOfBoundsRead 1 1 := by
  decide

/-! ## The item lookup -/

theorem totalLength_cons (item : Item) (items : List Item) :
    totalLength (item :: items) = item.length + totalLength items := by
  simp [totalLength]

theorem scanItems_absent (uri : String) (items : List Item) (s : ScanState)
    (h : ∀ q ∈ items, q.data_uri ≠ uri) (hs : s.file_offset < 2 ^ 64) :
    (scanItems uri items s).file_offset = (s.file_offset + totalLength items) % 2 ^ 64 ∧
    (scanItems uri items s).file_length = s.file_length ∧
    (scanItems uri items s).index = s.index + items.length := by
  induction items generalizing s with
  | nil =>
    refine ⟨?_, rfl, rfl⟩
    show s.file_offset = (s.file_offset + 0) % 2 ^ 64
    rw [Nat.add_zero, Nat.mod_eq_of_lt hs]
  | cons q qs ih =>
    have hq : ¬ uri = q.data_uri := fun e => h q (List.mem_cons_self _ _) e.symm
    have hqs : ∀ r ∈ qs, r.data_uri ≠ uri := fun r hr => h r (List.mem_cons_of_mem _ hr)
    have hlt : (s.file_offset + q.length) % 2 ^ 64 < 2 ^ 64 := Nat.mod_lt _ (by norm_num)
    obtain ⟨h1, h2, h3⟩ := ih
      { s with is_mime_type_image := IsMimeTypeImage q.mime,
               file_offset := (s.file_offset + q.length) % 2 ^ 64,
               index := s.index + 1 } hqs hlt
    simp only [scanItems, hq, if_false]
    refine ⟨?_, h2, ?_⟩
    · rw [h1, totalLength_cons]
      simp only [Nat.add_assoc, Nat.mod_add_mod]
    · rw [h3]
      simp only [List.length_cons]
      omega

theorem scanItems_append (uri : String) (pre rest : List Item) (s : ScanState)
    (h : ∀ q ∈ pre, q.data_uri ≠ uri) :
    scanItems uri (pre ++ rest) s = scanItems uri rest (scanItems uri pre s) := by
  induction pre generalizing s with
  | nil => rfl
  | cons q qs ih =>
    have hq : ¬ uri = q.data_uri := fun e => h q (List.mem_cons_self _ _) e.symm
    have hqs : ∀ r ∈ qs, r.data_uri ≠ uri := fun r hr => h r (List.mem_cons_of_mem _ hr)
    simp only [List.cons_append, scanItems, hq, if_false]
    exact ih _ hqs

theorem scanItems_absent_image (uri : String) (items : List Item) (s : ScanState)
    (h : ∀ q ∈ items, q.data_uri ≠ uri) (hidx : (scanItems uri items s).index = s.index) :
    (scanItems uri items s).is_mime_type_image = s.is_mime_type_image := by
  cases items with
  | nil => rfl
  | cons q qs =>
    have hq : ¬ uri = q.data_uri := fun e => h q (List.mem_cons_self _ _) e.symm
    have hqs : ∀ r ∈ qs, r.data_uri ≠ uri := fun r hr => h r (List.mem_cons_of_mem _ hr)
    have hs : (0 : Nat) < 2 ^ 64 := by norm_num
    exfalso
    simp only [scanItems, hq, if_false] at hidx
    have h3 := (scanItems_absent uri qs
      { s with is_mime_type_image := IsMimeTypeImage q.mime,
               file_offset := (s.file_offset + q.length) % 2 ^ 64,
               index := s.index + 1 } hqs (Nat.mod_lt _ (by norm_num))).2.2
    rw [h3] at hidx
    simp only at hidx
    omega

theorem isMimeTypeImage_of_image_slash (mime : String) (h : "image/".data <+: mime.data) :
    IsMimeTypeImage mime = true := by
  obtain ⟨t, ht⟩ := h
  have hfind : find ("image/".data ++ t.map Char.toLower) (Char.ofNat 47) = 5 := by
    simp [find, List.indexOf_cons]
  have hlow : mime.data.map Char.toLower = "image/".data ++ t.map Char.toLower := by
    rw [← ht, List.map_append]
    rfl
  simp only [IsMimeTypeImage, hlow, hfind]
  simp [strncmp, kImageMimePrefix]

theorem getItemPayload_absent (P : String → Nat → Nat → Bool × String) (f : String)
    (c : Container) (uri out : String) (habs : ∀ it ∈ c.items, it.data_uri ≠ uri) :
    GetItemPayload P f (some c) uri out =
      if totalLength c.items % 2 ^ 64 = 0 then
        { success := false, out_payload := out, reads := [],
          log := ["Not using the primary image, or not image mime, or not " ++
                  "the first item, but has file offset of 0"] }
      else
        { success := (P f (totalLength c.items % 2 ^ 64) 0).1,
          out_payload := (P f (totalLength c.items % 2 ^ 64) 0).2,
          reads := [{ filename := f, offset := totalLength c.items % 2 ^ 64, length := 0 }],
          log := [] } := by
  obtain ⟨h1, h2, h3⟩ := scanItems_absent uri c.items scanInit habs (by norm_num [scanInit])
  have h1 : (scanItems uri c.items scanInit).file_offset = totalLength c.items % 2 ^ 64 := by
    rw [h1]; simp [scanInit]
  have h2 : (scanItems uri c.items scanInit).file_length = 0 := by rw [h2]; rfl
  have hsent : ¬ ((scanItems uri c.items scanInit).index = 0 ∧
      (scanItems uri c.items scanInit).is_mime_type_image = true) := by
    rintro ⟨hi, hm⟩
    have := scanItems_absent_image uri c.items scanInit habs (by rw [hi]; rfl)
    rw [this] at hm
    simp [scanInit] at hm
  simp only [GetItemPayload, h1, h2, hsent, if_true, if_false]

/-- C2: when the first item whose data URI is the target comes after the items
`pre`, and it is not the case that both its length and the summed lengths of
`pre` are 0, the lookup requests exactly one read, at offset the sum of the
lengths of `pre` and with the length of the item, and returns the success flag
and the bytes of that read.  The summed lengths are within the range of
`size_t`. -/
theorem getItemPayload_reads_item (P : String → Nat → Nat → Bool × String) (f : String)
    (c : Container) (uri out : String) (pre : List Item) (item : Item)
    (hfirst : FirstMatch c.items uri pre item)
    (hnot : ¬ (item.length = 0 ∧ totalLength pre = 0))
    (hfit : totalLength pre < 2 ^ 64) :
    GetItemPayload P f (some c) uri out =
      { success := (P f (totalLength pre) item.length).1,
        out_payload := (P f (totalLength pre) item.length).2,
        reads := [{ filename := f, offset := totalLength pre, length := item.length }],
        log := [] } := by
  obtain ⟨post, hsplit, hpre, huri⟩ := hfirst
  obtain ⟨h1, _, h3⟩ := scanItems_absent uri pre scanInit hpre (by norm_num [scanInit])
  have hoff : (scanItems uri pre scanInit).file_offset = totalLength pre := by
    rw [h1]
    show (0 + totalLength pre) % 2 ^ 64 = totalLength pre
    rw [Nat.zero_add, Nat.mod_eq_of_lt hfit]
  have hidx : (scanItems uri pre scanInit).index = pre.length := by
    rw [h3]; simp [scanInit]
  have hscan : scanItems uri c.items scanInit =
      { file_offset := totalLength pre, file_length := item.length, index := pre.length,
        is_mime_type_image := IsMimeTypeImage item.mime } := by
    rw [hsplit, scanItems_append uri pre (item :: post) scanInit hpre]
    simp [scanItems, huri, hoff, hidx]
  simp only [GetItemPayload, hscan]
  by_cases hlen : item.length = 0
  · have htot : totalLength pre ≠ 0 := fun h => hnot ⟨hlen, h⟩
    have hne : pre.length ≠ 0 := by
      intro h0
      have : pre = [] := List.length_eq_zero.mp h0
      exact htot (by rw [this]; rfl)
    simp [hlen, htot, hne]
  · simp [hlen]

theorem exampleContainer_confidence :
    FirstMatch exampleContainer.items "confidence"
      [{ mime := "image/jpeg", length := 0, data_uri := "primary", payload := "" },
       { mime := "image/jpeg", length := 100, data_uri := "depth", payload := "" }]
      { mime := "image/jpeg", length := 50, data_uri := "confidence", payload := "" } :=
  ⟨[], rfl, by decide, rfl⟩

/-- Witness of C2: in the container with lengths 0, 100 and 50 the third item
is read at offset 100 with length 50. -/
theorem getItemPayload_reads_item_witness :
    GetItemPayload exampleReader "f" (some exampleContainer) "confidence" "" =
      { success := true, out_payload := "bytes",
        reads := [{ filename := "f", offset := 100, length := 50 }], log := [] } :=
  getItemPayload_reads_item exampleReader "f" exampleContainer "confidence" "" _ _
    exampleContainer_confidence (by decide) (by decide)

/-- C3: when the first item of the container has the target data URI, length 0
and a mime type beginning with "image/", the lookup returns true, requests no
read and leaves the output payload as it was. -/
theorem getItemPayload_primary_image (P : String → Nat → Nat → Bool × String) (f : String)
    (c : Container) (uri out : String) (item : Item) (rest : List Item)
    (hitems : c.items = item :: rest) (huri : item.data_uri = uri)
    (hlen : item.length = 0) (hmime : "image/".data <+: item.mime.data) :
    GetItemPayload P f (some c) uri out =
      { success := true, out_payload := out, reads := [],
        log := ["Item references the primary image, Not populating data"] } := by
  have himg := isMimeTypeImage_of_image_slash item.mime hmime
  simp [GetItemPayload, hitems, scanItems, huri, hlen, himg, scanInit]

/-- Witness of C3: looking up the first item of the example container. -/
theorem getItemPayload_primary_image_witness :
    GetItemPayload exampleReader "f" (some exampleContainer) "primary" "before" =
      { success := true, out_payload := "before", reads := [],
        log := ["Item references the primary image, Not populating data"] } :=
  getItemPayload_primary_image exampleReader "f" exampleContainer "primary" "before"
    { mime := "image/jpeg", length := 0, data_uri := "primary", payload := "" } _
    rfl rfl rfl ⟨"jpeg".data, rfl⟩

/-- C9, as the code has it: for a target URI that equals no item's data URI,
the lookup returns false without a read when the accumulated offset (the sum
of all item lengths, in `size_t`) is 0; otherwise it requests one read at that
offset with length 0 and returns the flag and bytes of that read. -/
theorem getItemPayload_absent_uri (P : String → Nat → Nat → Bool × String) (f : String)
    (c : Container) (uri out : String) (habs : ∀ it ∈ c.items, it.data_uri ≠ uri) :
    (totalLength c.items % 2 ^ 64 = 0 →
      GetItemPayload P f (some c) uri out =
        { success := false, out_payload := out, reads := [],
          log := ["Not using the primary image, or not image mime, or not " ++
                  "the first item, but has file offset of 0"] }) ∧
    (totalLength c.items % 2 ^ 64 ≠ 0 →
      GetItemPayload P f (some c) uri out =
        { success := (P f (totalLength c.items % 2 ^ 64) 0).1,
          out_payload := (P f (totalLength c.items % 2 ^ 64) 0).2,
          reads := [{ filename := f, offset := totalLength c.items % 2 ^ 64, length := 0 }],
          log := [] }) := by
  rw [getItemPayload_absent P f c uri out habs]
  constructor
  · intro h; rw [if_pos h]
  · intro h; rw [if_neg h]

/-- Witness of C9 as amended: a URI absent from the container with lengths 0,
100 and 50 leads to a read at offset 150 with length 0. -/
theorem getItemPayload_absent_uri_witness :
    GetItemPayload exampleReader "f" (some exampleContainer) "missing" "before" =
      { success := (exampleReader "f" (totalLength exampleContainer.items % 2 ^ 64) 0).1,
        out_payload := (exampleReader "f" (totalLength exampleContainer.items % 2 ^ 64) 0).2,
        reads := [{ filename := "f", offset := totalLength exampleContainer.items % 2 ^ 64,
                    length := 0 }],
        log := [] } :=
  (getItemPayload_absent_uri exampleReader "f" exampleContainer "missing" "before"
    (by decide)).2 (by decide)

/-- Counterexample to C9 as stated: "missing" is the data URI of no item of
the container with lengths 0, 100 and 50, yet the lookup requests a read at
offset 150 with length 0 and returns the success of that read. -/
theorem getItemPayload_absent_uri_counterexample :
    (∀ it ∈ exampleContainer.items, it.data_uri ≠ "missing") ∧
    GetItemPayload exampleReader "f" (some exampleContainer) "missing" "before" =
      { success := true, out_payload := "bytes",
        reads := [{ filename := "f", offset := 150, length := 0 }], log := [] } := by
  decide

/-- C10: when no item matches and every item has length 0, so that the
accumulated offset is 0, the lookup returns false without a read and does not
report the primary image; this covers the empty container. -/
theorem getItemPayload_absent_zero_lengths (P : String → Nat → Nat → Bool × String)
    (f : String) (c : Container) (uri out : String)
    (habs : ∀ it ∈ c.items, it.data_uri ≠ uri) (hzero : ∀ it ∈ c.items, it.length = 0) :
    GetItemPayload P f (some c) uri out =
      { success := false, out_payload := out, reads := [],
        log := ["Not using the primary image, or not image mime, or not " ++
                "the first item, but has file offset of 0"] } := by
  have htot : totalLength c.items = 0 := by
    unfold totalLength
    apply List.sum_eq_zero
    intro x hx
    obtain ⟨it, hit, rfl⟩ := List.mem_map.mp hx
    exact hzero it hit
  rw [getItemPayload_absent P f c uri out habs, htot]
  rfl

/-- Witness of C10: a URI absent from a container whose two items have length
0. -/
theorem getItemPayload_absent_zero_lengths_witness :
    GetItemPayload exampleReader "f" (some emptyItemsContainer) "missing" "before" =
      { success := false, out_payload := "before", reads := [],
        log := ["Not using the primary image, or not image mime, or not " ++
                "the first item, but has file offset of 0"] } :=
  getItemPayload_absent_zero_lengths exampleReader "f" emptyItemsContainer "missing" "before"
    (by decide) (by decide)

/-! ## The writer -/

theorem length_eq_data_length (s : String) : s.length = s.data.length := rfl

theorem streamWrite_whole (output payload : String) :
    streamWrite output payload payload.length = some (output ++ payload) := by
  have hle : payload.length ≤ (payload.data ++ [Char.ofNat 0]).length := by
    rw [length_eq_data_length, List.length_append]
    exact Nat.le_add_right _ _
  have htake : (payload.data ++ [Char.ofNat 0]).take payload.length = payload.data := by
    rw [length_eq_data_length]
    exact List.take_left' rfl
  simp only [streamWrite, hle, if_true, htake]

theorem writeItems_exact (items : List Item) (output : String)
    (hlen : ∀ it ∈ items, it.length = it.payload.length) :
    writeItems items output = .ok (output ++ payloadBytes items) := by
  induction items generalizing output with
  | nil => simp [writeItems, payloadBytes]
  | cons item rest ih =>
    have hitem : item.length = item.payload.length := hlen item (List.mem_cons_self _ _)
    have hrest : ∀ it ∈ rest, it.length = it.payload.length :=
      fun it hit => hlen it (List.mem_cons_of_mem _ hit)
    by_cases hskip : item.length ≤ 0 ∨ item.payload.data.isEmpty = true
    · have hempty : item.payload = "" := by
        rcases hskip with h | h
        · have h0 : item.payload.data.length = 0 := by
            rw [← length_eq_data_length, ← hitem]
            omega
          exact (data_isEmpty_iff _).mp (by simp [List.length_eq_zero.mp h0])
        · exact (data_isEmpty_iff _).mp h
      simp only [writeItems, hskip, if_true, payloadBytes, ih output hrest, hempty]
      simp
    · simp only [writeItems, hskip, if_false]
      rw [hitem, streamWrite_whole]
      simp only [ih _ hrest, payloadBytes, String.append_assoc]

theorem writeItems_skips (items : List Item) (output : String) :
    writeItems items output = writeItems (writtenItems items) output := by
  induction items generalizing output with
  | nil => rfl
  | cons item rest ih =>
    by_cases hskip : item.length ≤ 0 ∨ item.payload.data.isEmpty = true
    · have hdrop : writtenItems (item :: rest) = writtenItems rest := by
        rcases hskip with h | h
        · have h0 : item.length = 0 := by omega
          simp [writtenItems, List.filter_cons, h0]
        · simp [writtenItems, List.filter_cons, h]
      simp only [writeItems, hskip, if_true, hdrop, ih output]
    · have hkeep : writtenItems (item :: rest) = item :: writtenItems rest := by
        have h1 : item.length ≠ 0 := fun h => hskip (Or.inl (by omega))
        have h2 : item.payload.data.isEmpty = false := by
          cases h : item.payload.data.isEmpty
          · rfl
          · exact absurd (Or.inr h) hskip
        simp [writtenItems, List.filter_cons, h1, h2]
      rw [hkeep]
      simp only [writeItems, hskip, if_false]
      cases streamWrite output item.payload item.length with
      | none => rfl
      | some written => exact ih written

/-- C12: for a Device with a Container whose items each have a length equal to
their payload size, the writer leaves on the output the bytes of the XMP and
JPEG writer followed by the payloads of the items in declaration order, with
nothing in between; the items of length 0 or with an empty payload are skipped
by the loop; and with no Container nothing is appended. -/
theorem write_appends_payloads {XmpData : Type} (SerializeToXmp : Device → XmpData)
    (WriteLeftEyeAndXmpMeta : XmpData → String → Bool × String)
    (input output : String) (device : Device) (c : Container)
    (hc : device.container = some c)
    (hlen : ∀ it ∈ c.items, it.length = it.payload.length) :
    WriteImageAndMetadataAndContainer SerializeToXmp WriteLeftEyeAndXmpMeta input device output
      = .finished (WriteLeftEyeAndXmpMeta (SerializeToXmp device) input).1
          (output ++ (WriteLeftEyeAndXmpMeta (SerializeToXmp device) input).2
            ++ payloadBytes c.items) ∧
    (∀ out, writeItems c.items out = writeItems (writtenItems c.items) out) ∧
    (∀ d : Device, d.container = none →
      WriteImageAndMetadataAndContainer SerializeToXmp WriteLeftEyeAndXmpMeta input d output
        = .finished (WriteLeftEyeAndXmpMeta (SerializeToXmp d) input).1
            (output ++ (WriteLeftEyeAndXmpMeta (SerializeToXmp d) input).2)) := by
  refine ⟨?_, fun out => writeItems_skips c.items out, ?_⟩
  · simp only [WriteImageAndMetadataAndContainer, hc, writeItems_exact c.items _ hlen]
  · intro d hd
    simp only [WriteImageAndMetadataAndContainer, hd]

/-- Witness of C12: after the writer bytes "JPEG" the payloads "abc" and "de"
follow, the primary item of length 0 adding nothing. -/
theorem write_appends_payloads_witness :
    WriteImageAndMetadataAndContainer (fun _ => ()) exampleXmpWriter "in" payloadDevice ""
      = .finished true "JPEGabcde" :=
  (write_appends_payloads (fun _ => ()) exampleXmpWriter "in" "" payloadDevice
    { items :=
      [{ mime := "image/jpeg", length := 0, data_uri := "primary", payload := "" },
       { mime := "image/jpeg", length := 3, data_uri := "depth", payload := "abc" },
       { mime := "image/jpeg", length := 2, data_uri := "confidence", payload := "de" }] }
    rfl (by decide)).1

/-- C13, at a failed metadata write: with a metadata and JPEG writer that
fails without putting a byte on the stream, the writer returns false and has
nevertheless added the payloads "abc" and "de" to the empty output, through
the stream overload and through the file overload alike; the item loop runs
without looking at the success flag. -/
theorem write_after_failed_metadata_appends_payloads :
    (failingXmpWriter () "in").1 = false ∧
    (failingXmpWriter () "in").2 = "" ∧
    WriteImageAndMetadataAndContainer (fun _ => ()) failingXmpWriter "in" payloadDevice ""
      = .finished false "abcde" ∧
    WriteImageAndMetadataAndContainerToFile (fun _ => ()) failingXmpWriter "in" payloadDevice
      = .finished false "abcde" := by
  decide

/-- C16, at a short payload: for an item that declares 10 bytes and holds a
payload of 3, the writer asks `write` for 10 bytes of the payload buffer. -/
theorem write_short_payload_reads_past_end :
    WriteImageAndMetadataAndContainer (fun _ => ()) exampleXmpWriter "in"
      shortPayloadDevice "" = .payloadOverRead 10 3 := by
  decide

/-- C14: two Devices with the same cameras whose profile lists agree up to and
including the first profile of type "DepthPhoto" get the same outcome from the
validator, whatever profiles follow. -/
theorem validate_ignores_later_profiles (FromXmp : String → Option Device)
    (buffer1 buffer2 : String) (d1 d2 : Device) (ps1 ps2 : Profiles)
    (pre post1 post2 : List Profile) (p : Profile)
    (hparse1 : FromXmp buffer1 = some d1) (hparse2 : FromXmp buffer2 = some d2)
    (hps1 : d1.profiles = some ps1) (hps2 : d2.profiles = some ps2)
    (hsplit1 : ps1.profiles = pre ++ p :: post1) (hsplit2 : ps2.profiles = pre ++ p :: post2)
    (hpre : ∀ q ∈ pre, q.type ≠ "DepthPhoto") (hp : p.type = "DepthPhoto")
    (hcam : d1.cameras = d2.cameras) :
    ValidateAndroidDynamicDepthBuffer FromXmp buffer1 =
      ValidateAndroidDynamicDepthBuffer FromXmp buffer2 := by
  have hscan1 := scanProfiles_first pre post1 p (false, 0) hpre hp
  have hscan2 := scanProfiles_first pre post2 p (false, 0) hpre hp
  simp only [ValidateAndroidDynamicDepthBuffer, hparse1, hparse2, validateDevice, hps1, hps2,
    hsplit1, hsplit2, hscan1, hscan2, hcam]

/-- Witness of C14: a first "DepthPhoto" profile without camera index is
rejected like the same profile followed by a valid "DepthPhoto" profile. -/
theorem validate_ignores_later_profiles_witness :
    ValidateAndroidDynamicDepthBuffer
      (fun b => if b = "a" then some deviceNoIndex else some deviceSecondProfileValid) "a" =
    ValidateAndroidDynamicDepthBuffer
      (fun b => if b = "a" then some deviceNoIndex else some deviceSecondProfileValid) "b" :=
  validate_ignores_later_profiles _ "a" "b" deviceNoIndex deviceSecondProfileValid
    { profiles := [{ type := "DepthPhoto", camera_indices := [] }] }
    { profiles := [{ type := "DepthPhoto", camera_indices := [] },
                   { type := "DepthPhoto", camera_indices := [0] }] }
    [] [] [{ type := "DepthPhoto", camera_indices := [0] }]
    { type := "DepthPhoto", camera_indices := [] }
    (by simp) (by simp) rfl rfl rfl rfl (by simp) rfl rfl

/-- C11, at a truncated mime type: "im/x" does not begin with "image/", yet
`IsMimeTypeImage` accepts it, as it accepts "/x", and the lookup of a first
item of length 0 with that mime type returns the primary image. -/
theorem truncated_mime_returns_primary_image :
    IsMimeTypeImage "im/x" = true ∧ IsMimeTypeImage "/x" = true ∧
    GetItemPayload exampleReader "f" (some truncatedMimeContainer) "primary" "before" =
      { success := true, out_payload := "before", reads := [],
        log := ["Item references the primary image, Not populating data"] } := by
  decide

/-! ## The mime test -/

theorem char_toNat_sub_ne (a b : Char) (h : a ≠ b) : (a.toNat : Int) - (b.toNat : Int) ≠ 0 := by
  intro h0
  have hnat : a.toNat = b.toNat := by omega
  apply h
  rw [← Char.ofNat_toNat a, ← Char.ofNat_toNat b, hnat]

theorem char_toNat_ne_zero (c : Char) (h : c ≠ Char.ofNat 0) : c.toNat ≠ 0 := by
  intro h0
  apply h
  rw [← Char.ofNat_toNat c, h0]

theorem strncmp_eq_zero_iff (n : Nat) (s1 s2 : List Char)
    (h1 : Char.ofNat 0 ∉ s1) (h2 : Char.ofNat 0 ∉ s2) :
    strncmp s1 s2 n = 0 ↔ s1.take n = s2.take n := by
  induction n generalizing s1 s2 with
  | zero => simp [strncmp]
  | succ n ih =>
    cases s1 with
    | nil =>
      cases s2 with
      | nil => simp [strncmp]
      | cons b t =>
        have hb : Char.ofNat 0 ≠ b := fun e => h2 (e ▸ List.mem_cons_self _ _)
        have := char_toNat_ne_zero b hb.symm
        simp [strncmp, hb, this]
    | cons a t1 =>
      have ha : a ≠ Char.ofNat 0 := fun e => h1 (e ▸ List.mem_cons_self _ _)
      have ht1 : Char.ofNat 0 ∉ t1 := fun hm => h1 (List.mem_cons_of_mem _ hm)
      cases s2 with
      | nil =>
        have := char_toNat_ne_zero a ha
        simp [strncmp, ha, this]
      | cons b t2 =>
        have ht2 : Char.ofNat 0 ∉ t2 := fun hm => h2 (List.mem_cons_of_mem _ hm)
        by_cases hab : a = b
        · subst hab
          simp [strncmp, ha, ih t1 t2 ht1 ht2]
        · have := char_toNat_sub_ne _ _ hab
          simp [strncmp, hab, this]

theorem toLower_ne_nul (c : Char) (h : c ≠ Char.ofNat 0) : c.toLower ≠ Char.ofNat 0 := by
  unfold Char.toLower
  by_cases hr : c.toNat ≥ 65 ∧ c.toNat ≤ 90
  · simp only [hr, and_self, if_true]
    obtain ⟨hlo, hhi⟩ := hr
    interval_cases c.toNat <;> decide
  · simp only [hr, if_false]
    exact h

theorem lower_has_no_nul (l : List Char) (h : Char.ofNat 0 ∉ l) :
    Char.ofNat 0 ∉ l.map Char.toLower := by
  intro hm
  obtain ⟨c, hc, hcz⟩ := List.mem_map.mp hm
  exact toLower_ne_nul c (fun e => h (e ▸ hc)) hcz

theorem first_occurrence (c : Char) (s : List Char) (h : c ∈ s) :
    ∃ pre post, s = pre ++ c :: post ∧ c ∉ pre ∧ s.indexOf c = pre.length := by
  induction s with
  | nil => exact absurd h (List.not_mem_nil _)
  | cons b t ih =>
    by_cases hbc : b = c
    · exact ⟨[], t, by simp [hbc], List.not_mem_nil _, by simp [hbc]⟩
    · have hct : c ∈ t := by
        rcases List.mem_cons.mp h with e | e
        · exact absurd e.symm hbc
        · exact e
      obtain ⟨pre, post, hs, hpre, hidx⟩ := ih hct
      refine ⟨b :: pre, post, by simp [hs], ?_, ?_⟩
      · intro hm
        rcases List.mem_cons.mp hm with e | e
        · exact hbc e.symm
        · exact hpre e
      · rw [List.indexOf_cons_ne _ hbc, hidx]
        rfl

theorem isMimeTypeImage_iff_take (mime : String) (hnul : Char.ofNat 0 ∉ mime.data) :
    IsMimeTypeImage mime = true ↔
      (mime.data.map Char.toLower).take (find (mime.data.map Char.toLower) (Char.ofNat 47))
        = "image".data.take (find (mime.data.map Char.toLower) (Char.ofNat 47)) := by
  have hs := lower_has_no_nul mime.data hnul
  have himg : Char.ofNat 0 ∉ "image".data := by decide
  rw [← strncmp_eq_zero_iff _ _ _ hs himg]
  simp [IsMimeTypeImage, kImageMimePrefix]

/-- C17: for a mime string without embedded NUL, with `s` its lower-cased
form, `IsMimeTypeImage` is true exactly when either `s` has no '/' and is
"image", or the first '/' of `s` is at a position `n ≤ 5` and the first `n`
characters of `s` are the first `n` characters of "image". -/
theorem isMimeTypeImage_characterisation (mime : String)
    (hnul : Char.ofNat 0 ∉ mime.data) :
    IsMimeTypeImage mime = true ↔
      (('/' ∉ mime.data.map Char.toLower ∧ mime.data.map Char.toLower = "image".data) ∨
       (∃ pre post, mime.data.map Char.toLower = pre ++ '/' :: post ∧ '/' ∉ pre ∧
          pre.length ≤ 5 ∧
          (mime.data.map Char.toLower).take pre.length = "image".data.take pre.length)) := by
  have h47 : ('/' : Char) = Char.ofNat 47 := rfl
  rw [isMimeTypeImage_iff_take mime hnul, h47]
  generalize mime.data.map Char.toLower = s
  have himglen : "image".data.length = 5 := rfl
  by_cases hmem : Char.ofNat 47 ∈ s
  · obtain ⟨pre, post, hs, hpre, hidx⟩ := first_occurrence _ s hmem
    have hfind : find s (Char.ofNat 47) = pre.length := by
      have hlt := List.indexOf_lt_length.mpr hmem
      rw [hidx] at hlt
      simp only [find, hidx, hlt, if_true]
    rw [hfind]
    constructor
    · intro htake
      refine Or.inr ⟨pre, post, hs, hpre, ?_, htake⟩
      have hlen := congrArg List.length htake
      rw [hs, List.take_left' rfl, List.length_take, himglen] at hlen
      omega
    · rintro (⟨hno, _⟩ | ⟨pre2, post2, hs2, hpre2, _, htake2⟩)
      · exact absurd hmem hno
      · have hidx2 : s.indexOf (Char.ofNat 47) = pre2.length := by
          rw [hs2, List.indexOf_append_of_not_mem hpre2, List.indexOf_cons_self]
          rfl
        have hsame : pre2.length = pre.length := by rw [← hidx2, hidx]
        rw [← hsame]
        exact htake2
  · have hfind : find s (Char.ofNat 47) = npos := by
      simp only [find, List.indexOf_eq_length.mpr hmem, lt_irrefl, if_false]
    have himgtake : "image".data.take npos = "image".data :=
      List.take_of_length_le (by rw [himglen]; decide)
    rw [hfind, himgtake]
    constructor
    · intro htake
      refine Or.inl ⟨hmem, ?_⟩
      have hlen := congrArg List.length htake
      rw [List.length_take, himglen] at hlen
      have hshort : s.length ≤ npos := by
        have hn : (5 : Nat) < npos := by decide
        omega
      rw [List.take_of_length_le hshort] at htake
      exact htake
    · rintro (⟨_, himage⟩ | ⟨pre2, post2, hs2, _, _, _⟩)
      · rw [himage, himgtake]
      · exact absurd (by rw [hs2]; simp) hmem

/-- Witness of C17: "IM/x" is accepted, its first '/' being at position 2 and
"im" being the first two characters of "image". -/
theorem isMimeTypeImage_characterisation_witness : IsMimeTypeImage "IM/x" = true :=
  (isMimeTypeImage_characterisation "IM/x" (by decide)).mpr
    (Or.inr ⟨"im".data, "x".data, by decide, by decide, by decide, by decide⟩)

/-! ## Writing and locating -/

theorem payloadBytes_append (a b : List Item) :
    payloadBytes (a ++ b) = payloadBytes a ++ payloadBytes b := by
  induction a with
  | nil => simp [payloadBytes]
  | cons item rest ih => simp [payloadBytes, ih, String.append_assoc]

theorem payloadBytes_length (items : List Item)
    (hlen : ∀ it ∈ items, it.length = it.payload.length) :
    (payloadBytes items).data.length = totalLength items := by
  induction items with
  | nil => rfl
  | cons item rest ih =>
    have hitem : item.length = item.payload.length := hlen item (List.mem_cons_self _ _)
    have hrest : ∀ it ∈ rest, it.length = it.payload.length :=
      fun it hit => hlen it (List.mem_cons_of_mem _ hit)
    rw [totalLength_cons, payloadBytes, String.data_append, List.length_append, ih hrest,
      hitem, length_eq_data_length]

theorem scanItems_firstMatch (uri : String) (items pre : List Item) (item : Item)
    (hfirst : FirstMatch items uri pre item) (hfit : totalLength pre < 2 ^ 64) :
    scanItems uri items scanInit =
      { file_offset := totalLength pre, file_length := item.length, index := pre.length,
        is_mime_type_image := IsMimeTypeImage item.mime } := by
  obtain ⟨post, hsplit, hpre, huri⟩ := hfirst
  obtain ⟨h1, _, h3⟩ := scanItems_absent uri pre scanInit hpre (by norm_num [scanInit])
  have hoff : (scanItems uri pre scanInit).file_offset = totalLength pre := by
    rw [h1]
    show (0 + totalLength pre) % 2 ^ 64 = totalLength pre
    rw [Nat.zero_add, Nat.mod_eq_of_lt hfit]
  have hidx : (scanItems uri pre scanInit).index = pre.length := by
    rw [h3]; simp [scanInit]
  rw [hsplit, scanItems_append uri pre (item :: post) scanInit hpre]
  simp [scanItems, huri, hoff, hidx]

/-- C15: for a Container whose items have pairwise distinct data URIs and
lengths equal to their payload sizes, and for an item of length above 0, the
read that the lookup requests for the URI of the item, taken inside the bytes
that the writer appended after the image, is exactly the payload of the item.
The lengths before the item sum to less than `2 ^ 64`. -/
theorem write_locate_round_trip {XmpData : Type} (SerializeToXmp : Device → XmpData)
    (WriteLeftEyeAndXmpMeta : XmpData → String → Bool × String)
    (P : String → Nat → Nat → Bool × String) (f input output out : String)
    (device : Device) (c : Container) (pre post : List Item) (item : Item)
    (hc : device.container = some c) (hsplit : c.items = pre ++ item :: post)
    (hdistinct : (c.items.map Item.data_uri).Nodup)
    (hlen : ∀ it ∈ c.items, it.length = it.payload.length)
    (hpos : 0 < item.length) (hfit : totalLength pre < 2 ^ 64) :
    WriteImageAndMetadataAndContainer SerializeToXmp WriteLeftEyeAndXmpMeta input device output
      = .finished (WriteLeftEyeAndXmpMeta (SerializeToXmp device) input).1
          (output ++ (WriteLeftEyeAndXmpMeta (SerializeToXmp device) input).2
            ++ payloadBytes c.items) ∧
    (GetItemPayload P f (some c) item.data_uri out).reads =
      [{ filename := f, offset := totalLength pre, length := item.length }] ∧
    String.mk (((payloadBytes c.items).data.drop (totalLength pre)).take item.length)
      = item.payload := by
  have hpre : ∀ q ∈ pre, q.data_uri ≠ item.data_uri := by
    intro q hq heq
    rw [hsplit, List.map_append, List.nodup_append] at hdistinct
    exact hdistinct.2.2 (List.mem_map_of_mem _ hq)
      (heq ▸ List.mem_map_of_mem _ (List.mem_cons_self item post))
  have hscan := scanItems_firstMatch item.data_uri c.items pre item
    ⟨post, hsplit, hpre, rfl⟩ hfit
  have hprelen : ∀ it ∈ pre, it.length = it.payload.length :=
    fun it hit => hlen it (by rw [hsplit]; exact List.mem_append_left _ hit)
  have hitem : item.length = item.payload.data.length :=
    hlen item (by rw [hsplit]; simp)
  refine ⟨?_, ?_, ?_⟩
  · simp only [WriteImageAndMetadataAndContainer, hc, writeItems_exact c.items _ hlen]
  · have hne : item.length ≠ 0 := Nat.pos_iff_ne_zero.mp hpos
    simp [GetItemPayload, hscan, hne]
  · rw [hsplit, payloadBytes_append, payloadBytes, String.data_append, String.data_append,
      List.drop_left' (payloadBytes_length pre hprelen), List.take_left' hitem.symm]

/-- Witness of C15: in the container with payloads "", "abc" and "de" the item
"confidence" is read at offset 3 with length 2, and bytes 3 and 4 of the
appended "abcde" are "de". -/
theorem write_locate_round_trip_witness :
    (GetItemPayload exampleReader "f" payloadDevice.container "confidence" "").reads =
      [{ filename := "f", offset := 3, length := 2 }] ∧
    String.mk (("abcde".data.drop 3).take 2) = "de" :=
  (write_locate_round_trip (fun _ => ()) exampleXmpWriter exampleReader "f" "in" "" ""
    payloadDevice
    { items :=
      [{ mime := "image/jpeg", length := 0, data_uri := "primary", payload := "" },
       { mime := "image/jpeg", length := 3, data_uri := "depth", payload := "abc" },
       { mime := "image/jpeg", length := 2, data_uri := "confidence", payload := "de" }] }
    [{ mime := "image/jpeg", length := 0, data_uri := "primary", payload := "" },
     { mime := "image/jpeg", length := 3, data_uri := "depth", payload := "abc" }]
    []
    { mime := "image/jpeg", length := 2, data_uri := "confidence", payload := "de" }
    rfl rfl (by decide) (by decide) (by decide) (by decide)).2

end DynamicDepth
